import Mathlib

/-! Verification of the round-resolution core of the botbrawl repository.

Shallow embedding of src/src/planAIActions.ts, src/src/main.ts and
src/src/Bot.ts, together with the single-file variant in
src/unnamed/part_000, plus theorems settling the specification's claims.

Modelling conventions:
* Coordinates and all JS numbers are exact rationals.
* The third-party Phaser primitives the core calls (Euclidean distance,
  vector rotation, normalization, line-vs-rectangle intersection) are not
  code of this repository; they enter the embedding as an explicit `Geom`
  record of functions, exactly at the call sites where the source invokes
  them.
* `Math.random()` is an explicit entropy stream `rand : ℕ → ℚ` of draws in
  [0, 1); every call site consumes the next index, in source order.
  `Phaser.Math.Between` and `Phaser.Math.FloatBetween` are defined from a
  draw by their library formulas.
* Object references (a projectile's owner bot, roster membership) are
  represented by the unit's integer id, which the source assigns uniquely
  and never reuses.
-/

namespace BotBrawl

/-- 2D point/vector (Phaser.Math.Vector2 as consumed by the core). -/
structure Vec2 where
  x : ℚ
  y : ℚ
deriving DecidableEq, Repr

/-- Vector2.scale. -/
def Vec2.scale (v : Vec2) (s : ℚ) : Vec2 := ⟨v.x * s, v.y * s⟩

/-- Vector2.add. -/
def Vec2.add (a b : Vec2) : Vec2 := ⟨a.x + b.x, a.y + b.y⟩

/-- Phaser.Geom.Rectangle: top-left corner plus width and height. -/
structure Rect where
  x : ℚ
  y : ℚ
  width : ℚ
  height : ℚ
deriving DecidableEq, Repr

/-- A static barrier as the planner consumes it: center position plus
display size (planAIActions.ts line 47-49 reads b.x, b.y, b.displayWidth,
b.displayHeight). -/
structure Barrier where
  x : ℚ
  y : ℚ
  displayWidth : ℚ
  displayHeight : ℚ
deriving DecidableEq, Repr

/-- planAIActions.ts line 49: barrierRect = new Phaser.Geom.Rectangle(
b.x - b.displayWidth/2, b.y - b.displayHeight/2, b.displayWidth,
b.displayHeight). -/
def Barrier.rect (b : Barrier) : Rect :=
  ⟨b.x - b.displayWidth / 2, b.y - b.displayHeight / 2, b.displayWidth, b.displayHeight⟩

/-- The geometry primitives of the third-party Phaser library, passed in as
an explicit record because they are not code of this repository:
`dist` is Phaser.Math.Distance.Between (Euclidean distance between two
points), `rotateDeg a v` is v.clone().rotate(Phaser.Math.DegToRad a),
`normalize` is Vector2.normalize, and `lineToRectangle p q r` is
Phaser.Geom.Intersects.LineToRectangle on the segment from p to q. -/
structure Geom where
  dist : Vec2 → Vec2 → ℚ
  rotateDeg : ℚ → Vec2 → Vec2
  normalize : Vec2 → Vec2
  lineToRectangle : Vec2 → Vec2 → Rect → Bool

/-- Phaser.Math.Between(lo, hi) = Math.floor(Math.random() * (hi - lo + 1) + lo),
with `u` standing for the Math.random() draw. -/
def mathBetween (lo hi u : ℚ) : ℤ := ⌊u * (hi - lo + 1) + lo⌋

/-- Phaser.Math.FloatBetween(lo, hi) = Math.random() * (hi - lo) + lo. -/
def floatBetween (lo hi u : ℚ) : ℚ := u * (hi - lo) + lo

/-- Bot.ts: type ActionType = move | shoot | none. -/
inductive ActionType where
  | move
  | shoot
  | none
deriving DecidableEq, Repr

/-- Bot.ts: selectedMode has type Exclude ActionType none. -/
inductive Mode where
  | move
  | shoot
deriving DecidableEq, Repr

/-- Bot.ts: BotAction. `target` is an optional field in the source. -/
structure BotAction where
  type : ActionType
  direction : Vec2
  distance : ℚ
  target : Option Vec2
deriving DecidableEq, Repr

/-- Bot.ts: Bot. `pos` and `velocity` stand for the sprite's position and
physics velocity; `visible` and `bodyEnabled` for sprite.setVisible /
disableBody state, the parts of the sprite the core mutates. -/
structure Bot where
  id : ℕ
  playerId : ℕ
  pos : Vec2
  velocity : Vec2
  action : BotAction
  isAlive : Bool
  selectedMode : Mode
  plannedMove : Option BotAction
  plannedShoot : Option BotAction
  visible : Bool
  bodyEnabled : Bool
deriving DecidableEq, Repr

/-- main.ts: BulletSprite, a pooled particle with an optional owner
reference (modelled by the owner bot's unique id). `active` is the Phaser
active flag (false once destroyed); `lifetimeMs` is the force-expiry delay
armed at spawn time. -/
structure Particle where
  pos : Vec2
  vel : Vec2
  ownerBot : Option ℕ
  active : Bool
  lifetimeMs : ℚ
deriving DecidableEq, Repr

/-- main.ts lines 217-221 and 639: the default empty intent. -/
def noneAction : BotAction :=
  { type := ActionType.none, direction := ⟨1, 0⟩, distance := 0, target := Option.none }

/-- planAIActions.ts lines 18-24: the raw to-target vector
(target - bot position), with the zero-length-squared fallback to (1, 0)
applied before normalization. Over ℚ the lengthSq === 0 test is exact. -/
def toTargetDir (p q : Vec2) : Vec2 :=
  let d : Vec2 := ⟨q.x - p.x, q.y - p.y⟩
  if d.x * d.x + d.y * d.y = 0 then ⟨1, 0⟩ else d

/-- planAIActions.ts lines 6-14: the closest-enemy search loop.
The accumulator holds (target, minDist); `Option.none` stands for the
initial target = null / minDist = +infinity state, in which the first
comparison d < minDist always succeeds. Later comparisons use strict <,
so an equal distance never displaces the incumbent. -/
def findClosestLoop (g : Geom) (p : Vec2) : List Bot → Option (Bot × ℚ) → Option (Bot × ℚ)
  | [], acc => acc
  | e :: rest, acc =>
      let d := g.dist p e.pos
      findClosestLoop g p rest
        (match acc with
         | Option.none => some (e, d)
         | some (t, m) => if d < m then some (e, d) else some (t, m))

/-- The closest-enemy search started from the null/infinity state. -/
def findClosestEnemy (g : Geom) (p : Vec2) (enemies : List Bot) : Option (Bot × ℚ) :=
  findClosestLoop g p enemies Option.none

/-- planAIActions.ts line 42: for (angle = 0; angle < 360; angle += 15). -/
def angleList : List ℚ :=
  [0, 15, 30, 45, 60, 75, 90, 105, 120, 135, 150, 165, 180, 195, 210,
   225, 240, 255, 270, 285, 300, 315, 330, 345]

/-- planAIActions.ts lines 45-53: a candidate path is clear when no
barrier's rectangle intersects the segment from the bot to the test
target (the forEach sets `collision` as soon as one intersects). -/
def pathClear (g : Geom) (pos testTarget : Vec2) (barriers : List Barrier) : Bool :=
  barriers.all fun b => !(g.lineToRectangle pos testTarget b.rect)

/-- planAIActions.ts lines 43-44 combined with the clear test: rotate the
to-target direction by `a` degrees, project to the candidate distance and
test the straight segment against every barrier. -/
def sweepClear (g : Geom) (pos dir : Vec2) (barriers : List Barrier) (d : ℤ) (a : ℚ) : Bool :=
  pathClear g pos (pos.add ((g.rotateDeg a dir).scale (d : ℚ))) barriers

/-- planAIActions.ts lines 35-68: movement planning with obstacle
avoidance, for a unit that fell through to the move branch. Draws the
candidate distance, scans `angleList` for the first clear heading, and on
total failure falls back to a random heading with a short wiggle distance.
The source guards the sweep with `if (barriers)`, which tests the barrier
group object for null, not for emptiness; the group is always passed, so
the sweep always runs. `k` indexes the entropy stream; the found branch
consumes one draw, the fallback three. -/
def movePlan (g : Geom) (rand : ℕ → ℚ) (pos dir : Vec2) (barriers : List Barrier)
    (maxMoveDistance : ℚ) (k : ℕ) : BotAction × ℕ :=
  match angleList.find? (sweepClear g pos dir barriers (mathBetween 60 maxMoveDistance (rand k))) with
  | some a =>
      ({ type := ActionType.move, direction := g.rotateDeg a dir,
         distance := ((mathBetween 60 maxMoveDistance (rand k) : ℤ) : ℚ),
         target := Option.none }, k + 1)
  | Option.none =>
      ({ type := ActionType.move,
         direction := g.rotateDeg ((mathBetween 0 359 (rand (k + 1)) : ℤ) : ℚ) ⟨1, 0⟩,
         distance := ((mathBetween 20 40 (rand (k + 2)) : ℤ) : ℚ),
         target := Option.none }, k + 3)

/-- planAIActions.ts lines 4-69: the per-unit body of planAiActions.
If no enemy exists the unit is skipped (continue). Within shooting range
(minDist <= shootPreviewLength * 4) an unbiased coin (Between(0,1) = 0)
commits a shoot intent; otherwise movement planning runs. The committed
shoot and move actions carry no target field, exactly as in the source. -/
def planOne (g : Geom) (rand : ℕ → ℚ) (enemies : List Bot) (barriers : List Barrier)
    (maxMoveDistance shootPreviewLength : ℚ) (bot : Bot) (k : ℕ) : Bot × ℕ :=
  match findClosestEnemy g bot.pos enemies with
  | Option.none => (bot, k)
  | some (target, minDist) =>
      let direction := g.normalize (toTargetDir bot.pos target.pos)
      if minDist ≤ shootPreviewLength * 4 then
        if mathBetween 0 1 (rand k) = 0 then
          ({ bot with action := { type := ActionType.shoot, direction := direction,
                                  distance := 0, target := Option.none } }, k + 1)
        else
          let mk := movePlan g rand bot.pos direction barriers maxMoveDistance (k + 1)
          ({ bot with action := mk.1 }, mk.2)
      else
        let mk := movePlan g rand bot.pos direction barriers maxMoveDistance k
        ({ bot with action := mk.1 }, mk.2)

/-- The for-loop of planAiActions over the hostile units, threading the
entropy index. -/
def planAiActionsGo (g : Geom) (rand : ℕ → ℚ) (enemies : List Bot) (barriers : List Barrier)
    (maxMoveDistance shootPreviewLength : ℚ) : List Bot → ℕ → List Bot × ℕ
  | [], k => ([], k)
  | bot :: rest, k =>
      let r := planOne g rand enemies barriers maxMoveDistance shootPreviewLength bot k
      let r2 := planAiActionsGo g rand enemies barriers maxMoveDistance shootPreviewLength rest r.2
      (r.1 :: r2.1, r2.2)

/-- src/src/planAIActions.ts: planAiActions(enemies, aiBots, barriers,
maxMoveDistance, shootPreviewLength). Mutates each hostile's action in
place; here it returns the updated hostile list, `enemies` being
read-only. -/
def planAiActions (g : Geom) (rand : ℕ → ℚ) (enemies aiBots : List Bot)
    (barriers : List Barrier) (maxMoveDistance shootPreviewLength : ℚ) : List Bot :=
  (planAiActionsGo g rand enemies barriers maxMoveDistance shootPreviewLength aiBots 0).1

/-- src/unnamed/part_000 lines 529-565: the planAiActions method of the
single-file variant. Same targeting, direction derivation and shoot
decision as the src/src variant, but the move branch commits the direct
to-target direction at the drawn distance with no obstacle sweep and no
wiggle fallback (the variant's scene has no barriers). -/
def planOneEmbedded (g : Geom) (rand : ℕ → ℚ) (enemies : List Bot)
    (maxMoveDistance shootPreviewLength : ℚ) (bot : Bot) (k : ℕ) : Bot × ℕ :=
  match findClosestEnemy g bot.pos enemies with
  | Option.none => (bot, k)
  | some (target, minDist) =>
      let direction := g.normalize (toTargetDir bot.pos target.pos)
      if minDist ≤ shootPreviewLength * 4 then
        if mathBetween 0 1 (rand k) = 0 then
          ({ bot with action := { type := ActionType.shoot, direction := direction,
                                  distance := 0, target := Option.none } }, k + 1)
        else
          ({ bot with action := { type := ActionType.move, direction := direction,
                                  distance := ((mathBetween 60 maxMoveDistance (rand (k + 1)) : ℤ) : ℚ),
                                  target := Option.none } }, k + 2)
      else
        ({ bot with action := { type := ActionType.move, direction := direction,
                                distance := ((mathBetween 60 maxMoveDistance (rand k) : ℤ) : ℚ),
                                target := Option.none } }, k + 1)

/-- The forEach of the part_000 planAiActions over the hostile units. -/
def planAiActionsEmbeddedGo (g : Geom) (rand : ℕ → ℚ) (enemies : List Bot)
    (maxMoveDistance shootPreviewLength : ℚ) : List Bot → ℕ → List Bot × ℕ
  | [], k => ([], k)
  | bot :: rest, k =>
      let r := planOneEmbedded g rand enemies maxMoveDistance shootPreviewLength bot k
      let r2 := planAiActionsEmbeddedGo g rand enemies maxMoveDistance shootPreviewLength rest r.2
      (r.1 :: r2.1, r2.2)

/-- src/unnamed/part_000 planAiActions, over the whole hostile list. -/
def planAiActionsEmbedded (g : Geom) (rand : ℕ → ℚ) (enemies aiBots : List Bot)
    (maxMoveDistance shootPreviewLength : ℚ) : List Bot :=
  (planAiActionsEmbeddedGo g rand enemies maxMoveDistance shootPreviewLength aiBots 0).1

/-- The Scene-owned state the round-resolution core reads and writes:
the three rosters (main.ts fields bots, playerBots, aiBots), the live
particle group, the planning flag, the start button's disabled flag, the
win text (Option.none while no message is shown) and the plan-dirty flag.
In the source the roster lists alias the same Bot objects; here each list
holds its own copy and the resolver updates them consistently by id. -/
structure GameState where
  bots : List Bot
  playerBots : List Bot
  aiBots : List Bot
  particles : List Particle
  isPlanning : Bool
  startDisabled : Bool
  winText : Option String
  planDirty : Bool
deriving DecidableEq, Repr

/-- main.ts lines 321-344 showWinMessage: record the message, leave the
planning phase and disable the start button (the 1800 ms welcome-box
timeout is DOM glue, out of scope). -/
def showWinMessage (msg : String) (s : GameState) : GameState :=
  { s with winText := some msg, isPlanning := false, startDisabled := true }

/-- main.ts lines 313-319 checkWinCondition: the hostile-roster-empty case
is evaluated first. -/
def checkWinCondition (s : GameState) : GameState :=
  if s.aiBots.length = 0 then showWinMessage "You win!" s
  else if s.playerBots.length = 0 then showWinMessage "You lose!" s
  else s

/-- main.ts lines 299-302 (and clearParticles): destroying a bullet
deletes its owner reference and deactivates it. -/
def destroyBullet (p : Particle) : Particle :=
  { p with ownerBot := Option.none, active := false }

/-- main.ts lines 274-311 handleBotHit: guards for an already-dead target,
an ownerless bullet, and a self-hit (owner reference === the hit bot,
modelled by id equality since ids are unique); on a qualifying hit the
unit dies, its sprite is hidden and its body disabled, the bullet is
destroyed if still active, the unit is filtered out of the all-units
roster and its side's roster, and the win condition is checked. Returns
the updated state together with the mutated bot and particle objects. -/
def handleBotHit (s : GameState) (bot : Bot) (particle : Particle) :
    GameState × Bot × Particle :=
  if bot.isAlive = false then (s, bot, particle)
  else if particle.ownerBot = Option.none then (s, bot, particle)
  else if particle.ownerBot = some bot.id then (s, bot, particle)
  else
    (checkWinCondition
      { s with
        bots := s.bots.filter fun b => b.id != bot.id,
        playerBots :=
          if bot.playerId = 1 then s.playerBots.filter (fun b => b.id != bot.id)
          else s.playerBots,
        aiBots :=
          if bot.playerId = 1 then s.aiBots
          else s.aiBots.filter fun b => b.id != bot.id },
     { bot with isAlive := false, visible := false, bodyEnabled := false },
     if particle.active then destroyBullet particle else particle)

/-- main.ts lines 634-647 endRound: re-enter planning, halt every
surviving unit and reset its intent and both remembered-intent slots,
destroy all remaining particles (clearParticles deletes each owner
reference, destroys the bullet and empties the group), mark the plan
dirty; updateUi then sets the start button's disabled flag to
!isPlanning, i.e. re-enables it. -/
def endRound (s : GameState) : GameState :=
  { s with
    isPlanning := true,
    bots := s.bots.map fun b =>
      if b.isAlive then
        { b with velocity := ⟨0, 0⟩, action := noneAction,
                 plannedMove := Option.none, plannedShoot := Option.none }
      else b,
    particles := [],
    planDirty := true,
    startDisabled := false }

/-- The per-survivor reset endRound applies: velocity zeroed, intent back
to the None default, both remembered-intent slots cleared. -/
def resetSurvivor (b : Bot) : Bot :=
  { b with velocity := ⟨0, 0⟩, action := noneAction,
           plannedMove := Option.none, plannedShoot := Option.none }

/-- main.ts lines 689-713, the body of the spawn loop of spawnShot: draw
the spread offset (FloatBetween(-8, 8)), rotate the base direction, place
the bullet 18 units ahead along its own heading, give it speed 420 along
that heading and arm the force-expiry timer. The pooled group
(maxSize 200) yields no particle when full, in which case the iteration
is skipped (continue) after the draw was already consumed. -/
def spawnShotLoop (g : Geom) (rand : ℕ → ℚ) (baseDirection botPos : Vec2) (botId : ℕ)
    (bulletLifetime : ℚ) : ℕ → List Particle → ℕ → List Particle × ℕ
  | 0, particles, k => (particles, k)
  | Nat.succ n, particles, k =>
      let direction := g.rotateDeg (floatBetween (-8) 8 (rand k)) baseDirection
      let particles1 :=
        if particles.length < 200 then
          particles ++
            [{ pos := ⟨botPos.x + direction.x * 18, botPos.y + direction.y * 18⟩,
               vel := ⟨direction.x * 420, direction.y * 420⟩,
               ownerBot := some botId, active := true, lifetimeMs := bulletLifetime }]
        else particles
      spawnShotLoop g rand baseDirection botPos botId bulletLifetime n particles1 (k + 1)

/-- main.ts lines 673-715 spawnShot: three bullets per shoot intent, base
direction = the intent direction normalized, maxBulletDistance = half the
shorter arena dimension, lifetime = maxBulletDistance / 420 * 1000 ms. -/
def spawnShot (g : Geom) (rand : ℕ → ℚ) (fieldWidth fieldHeight : ℚ) (bot : Bot)
    (particles : List Particle) (k : ℕ) : List Particle × ℕ :=
  spawnShotLoop g rand (g.normalize bot.action.direction) bot.pos bot.id
    (min fieldWidth fieldHeight / 2 / 420 * 1000) 3 particles k

/-- main.ts lines 662-670, the per-unit body of executeActions: a move
intent sets velocity = direction * (distance / (roundDurationMs / 1000));
a shoot intent spawns the burst; a none intent does nothing. -/
def execOne (g : Geom) (rand : ℕ → ℚ) (fieldWidth fieldHeight roundDurationMs : ℚ)
    (bot : Bot) (particles : List Particle) (k : ℕ) : Bot × List Particle × ℕ :=
  let bot1 :=
    if bot.action.type = ActionType.move then
      { bot with velocity :=
          ⟨bot.action.direction.x * (bot.action.distance / (roundDurationMs / 1000)),
           bot.action.direction.y * (bot.action.distance / (roundDurationMs / 1000))⟩ }
    else bot
  if bot1.action.type = ActionType.shoot then
    let r := spawnShot g rand fieldWidth fieldHeight bot1 particles k
    (bot1, r.1, r.2)
  else (bot1, particles, k)

/-- main.ts lines 661-671 executeActions over the whole roster, threading
the particle group and the entropy index. -/
def executeActions (g : Geom) (rand : ℕ → ℚ) (fieldWidth fieldHeight roundDurationMs : ℚ) :
    List Bot → List Particle → ℕ → List Bot × List Particle × ℕ
  | [], particles, k => ([], particles, k)
  | bot :: rest, particles, k =>
      let r := execOne g rand fieldWidth fieldHeight roundDurationMs bot particles k
      let r2 := executeActions g rand fieldWidth fieldHeight roundDurationMs rest r.2.1 r.2.2
      (r.1 :: r2.1, r2.2)

/-- main.ts lines 507-574 applyDragAction: commit a player intent from a
drag. Both the dragging-indicator and the plain-drag paths compute the
same direction (pointer minus bot position, zero fallback, normalize); a
move commits distance = min(maxMoveDistance, dist(bot, pointer)) and
target = direction * distance + origin, a shoot commits distance 0 and
target = direction * shootPreviewLength + origin; the matching
remembered-intent slot is stored alongside. Scene-level planDirty /
updateUi effects are presentation glue, out of scope. -/
def applyDragAction (g : Geom) (maxMoveDistance shootPreviewLength : ℚ) (bot : Bot)
    (pointer : Vec2) (draggingIndicator : Bool) : Bot :=
  if draggingIndicator then
    match bot.selectedMode with
    | Mode.move =>
        let direction := g.normalize (toTargetDir bot.pos pointer)
        let distance := min maxMoveDistance (g.dist bot.pos pointer)
        let act : BotAction :=
          { type := ActionType.move, direction := direction, distance := distance,
            target := some ((direction.scale distance).add bot.pos) }
        { bot with action := act, plannedMove := some act }
    | Mode.shoot =>
        let direction := g.normalize (toTargetDir bot.pos pointer)
        let act : BotAction :=
          { type := ActionType.shoot, direction := direction, distance := 0,
            target := some ((direction.scale shootPreviewLength).add bot.pos) }
        { bot with action := act, plannedShoot := some act }
  else
    match bot.selectedMode with
    | Mode.move =>
        let direction := g.normalize (toTargetDir bot.pos pointer)
        let distance := min maxMoveDistance (g.dist bot.pos pointer)
        let act : BotAction :=
          { type := ActionType.move, direction := direction, distance := distance,
            target := some ((direction.scale distance).add bot.pos) }
        { bot with action := act, plannedMove := some act }
    | Mode.shoot =>
        let direction := g.normalize (toTargetDir bot.pos pointer)
        let act : BotAction :=
          { type := ActionType.shoot, direction := direction, distance := 0,
            target := some ((direction.scale shootPreviewLength).add bot.pos) }
        { bot with action := act, plannedShoot := some act }

/-- Everything except the action field, pairwise between a unit before
and after planning. -/
def onlyActionChanged (b b1 : Bot) : Prop :=
  b1.id = b.id ∧ b1.playerId = b.playerId ∧ b1.isAlive = b.isAlive ∧
  b1.selectedMode = b.selectedMode ∧ b1.plannedMove = b.plannedMove ∧
  b1.plannedShoot = b.plannedShoot ∧ b1.pos = b.pos ∧ b1.velocity = b.velocity ∧
  b1.visible = b.visible ∧ b1.bodyEnabled = b.bodyEnabled

/-- The i-th bullet a qualifying shoot intent spawns (i = 0, 1, 2) when
the entropy index is k at spawn time, written with the intent direction
itself as the base direction (the form the executor produces whenever
normalize leaves the stored unit-length direction fixed). -/
def bulletAt (g : Geom) (rand : ℕ → ℚ) (fieldWidth fieldHeight : ℚ) (bot : Bot)
    (k i : ℕ) : Particle :=
  { pos := ⟨bot.pos.x + (g.rotateDeg (floatBetween (-8) 8 (rand (k + i))) bot.action.direction).x * 18,
           bot.pos.y + (g.rotateDeg (floatBetween (-8) 8 (rand (k + i))) bot.action.direction).y * 18⟩,
    vel := ⟨(g.rotateDeg (floatBetween (-8) 8 (rand (k + i))) bot.action.direction).x * 420,
           (g.rotateDeg (floatBetween (-8) 8 (rand (k + i))) bot.action.direction).y * 420⟩,
    ownerBot := some bot.id,
    active := true,
    lifetimeMs := min fieldWidth fieldHeight / 2 / 420 * 1000 }

/-! Concrete fixtures for witnesses and counterexamples. -/

/-- A concrete instantiation of the external geometry record: squared
Euclidean distance (which induces the same order as Euclidean distance),
identity rotation and normalization, and a line-rectangle test that never
intersects. -/
def geomId : Geom :=
  { dist := fun a b => (a.x - b.x) * (a.x - b.x) + (a.y - b.y) * (a.y - b.y),
    rotateDeg := fun _ v => v,
    normalize := fun v => v,
    lineToRectangle := fun _ _ _ => false }

/-- An entropy stream that always draws 0. -/
def rand0 : ℕ → ℚ := fun _ => 0

/-- A live hostile unit at the origin. -/
def hostileW : Bot :=
  { id := 1, playerId := 2, pos := ⟨0, 0⟩, velocity := ⟨0, 0⟩, action := noneAction,
    isAlive := true, selectedMode := Mode.move, plannedMove := Option.none,
    plannedShoot := Option.none, visible := true, bodyEnabled := true }

/-- A live friendly unit at (10, 0). -/
def friendlyA : Bot := { hostileW with id := 11, playerId := 1, pos := ⟨10, 0⟩ }

/-- A live friendly unit at (5, 0). -/
def friendlyB : Bot := { hostileW with id := 12, playerId := 1, pos := ⟨5, 0⟩ }

/-- A geometry whose zero-degree rotation is the identity, whose other
rotations swap the coordinates, and whose line-rectangle test reports an
intersection exactly when the segment's endpoint lies on the x-axis: it
blocks the direct eastward path while clearing the first rotated one. -/
def geomBlock : Geom :=
  { dist := fun a b => (a.x - b.x) * (a.x - b.x) + (a.y - b.y) * (a.y - b.y),
    rotateDeg := fun a v => if a = 0 then v else ⟨v.y, v.x⟩,
    normalize := fun v => v,
    lineToRectangle := fun _ q _ => decide (q.y = 0) }

/-- A unit barrier at the origin. -/
def barrierW : Barrier := ⟨0, 0, 1, 1⟩

/-- A committed shoot intent toward (1, 0). -/
def shootActionW : BotAction :=
  { type := ActionType.shoot, direction := ⟨1, 0⟩, distance := 0, target := Option.none }

/-- A unit with a committed shoot intent toward (1, 0). -/
def shooterW : Bot :=
  { hostileW with id := 21, playerId := 1, action := shootActionW }

/-- A bullet owned by the friendly unit friendlyA. -/
def bulletW : Particle :=
  { pos := ⟨0, 0⟩, vel := ⟨0, 0⟩, ownerBot := some 11, active := true, lifetimeMs := 0 }

/-- A mid-round state: one friendly and one hostile unit left, one bullet
in flight. -/
def stateW : GameState :=
  { bots := [friendlyA, hostileW], playerBots := [friendlyA], aiBots := [hostileW],
    particles := [bulletW], isPlanning := false, startDisabled := true,
    winText := Option.none, planDirty := false }

/-! Shared helper lemmas. -/

/-- A Phaser.Math.Between draw from a random value in [0, 1) lies in the
requested integer range. -/
theorem mathBetween_bounds (lo hi : ℤ) (u : ℚ) (h0 : 0 ≤ u) (h1 : u < 1)
    (hle : lo ≤ hi) :
    lo ≤ mathBetween (lo : ℚ) (hi : ℚ) u ∧ mathBetween (lo : ℚ) (hi : ℚ) u ≤ hi := by
  have hc : (0 : ℚ) < (hi : ℚ) - (lo : ℚ) + 1 := by
    have : (lo : ℚ) ≤ (hi : ℚ) := by exact_mod_cast hle
    linarith
  unfold mathBetween
  constructor
  · apply Int.le_floor.mpr
    have : (0 : ℚ) ≤ u * ((hi : ℚ) - (lo : ℚ) + 1) := mul_nonneg h0 hc.le
    linarith
  · have hx : u * ((hi : ℚ) - (lo : ℚ) + 1) + (lo : ℚ) < ((hi + 1 : ℤ) : ℚ) := by
      have : u * ((hi : ℚ) - (lo : ℚ) + 1) < (hi : ℚ) - (lo : ℚ) + 1 :=
        mul_lt_of_lt_one_left hc h1
      push_cast
      linarith
    have := Int.floor_lt.mpr hx
    omega

/-- A Phaser.Math.FloatBetween draw from a random value in [0, 1) lies in
the requested closed range. -/
theorem floatBetween_bounds (lo hi u : ℚ) (h0 : 0 ≤ u) (h1 : u < 1) (hle : lo ≤ hi) :
    lo ≤ floatBetween lo hi u ∧ floatBetween lo hi u ≤ hi := by
  unfold floatBetween
  constructor
  · nlinarith
  · nlinarith

/-- List.find? returns the first element satisfying the predicate: there
is an index holding the result such that every earlier index fails the
predicate. -/
theorem findFirstIndex {α : Type} (p : α → Bool) :
    ∀ (l : List α) (a : α), l.find? p = some a →
      ∃ i, ∃ hi : i < l.length, l.get ⟨i, hi⟩ = a ∧ p a = true ∧
        ∀ j, ∀ hj : j < l.length, j < i → p (l.get ⟨j, hj⟩) = false := by
  intro l
  induction l with
  | nil => intro a h; simp [List.find?] at h
  | cons x xs ih =>
    intro a h
    by_cases hx : p x = true
    · rw [List.find?_cons_of_pos _ hx] at h
      refine ⟨0, by simp, ?_, ?_, ?_⟩
      · simpa using Option.some_injective _ h
      · rw [← Option.some_injective _ h]; exact hx
      · intro j hj hj0; omega
    · rw [List.find?_cons_of_neg _ hx] at h
      obtain ⟨i, hi, hget, hp, hfirst⟩ := ih a h
      refine ⟨i + 1, by simpa using Nat.succ_lt_succ hi, ?_, hp, ?_⟩
      · simpa using hget
      · intro j hj hji
        match j, hj with
        | 0, _ => simpa using hx
        | Nat.succ j1, hj =>
          have : j1 < i := by omega
          simpa using hfirst j1 (by simpa using Nat.lt_of_succ_lt_succ hj) this

/-- Invariant of the closest-enemy loop when started from a concrete
incumbent (t, m): either no element beats m and the incumbent survives,
or the result is the first list element attaining the strict minimum
below m. -/
theorem findClosestLoop_spec (g : Geom) (p : Vec2) :
    ∀ (l : List Bot) (t : Bot) (m : ℚ),
      (findClosestLoop g p l (some (t, m)) = some (t, m) ∧
        ∀ j, ∀ hj : j < l.length, m ≤ g.dist p (l.get ⟨j, hj⟩).pos)
      ∨ (∃ i, ∃ hi : i < l.length,
          findClosestLoop g p l (some (t, m)) =
            some (l.get ⟨i, hi⟩, g.dist p (l.get ⟨i, hi⟩).pos) ∧
          g.dist p (l.get ⟨i, hi⟩).pos < m ∧
          (∀ j, ∀ hj : j < l.length,
            g.dist p (l.get ⟨i, hi⟩).pos ≤ g.dist p (l.get ⟨j, hj⟩).pos) ∧
          (∀ j, ∀ hj : j < l.length, j < i →
            g.dist p (l.get ⟨i, hi⟩).pos < g.dist p (l.get ⟨j, hj⟩).pos)) := by
  intro l
  induction l with
  | nil =>
    intro t m
    left
    exact ⟨rfl, fun j hj => absurd hj (Nat.not_lt_zero j)⟩
  | cons e rest ih =>
    intro t m
    have hstep : findClosestLoop g p (e :: rest) (some (t, m)) =
        findClosestLoop g p rest
          (if g.dist p e.pos < m then some (e, g.dist p e.pos) else some (t, m)) := rfl
    by_cases hd : g.dist p e.pos < m
    · rw [hstep, if_pos hd]
      rcases ih e (g.dist p e.pos) with ⟨heq, hall⟩ | ⟨i, hi, heq, hlt, hle, hstrict⟩
      · right
        refine ⟨0, by simp, heq, hd, ?_, ?_⟩
        · intro j hj
          match j, hj with
          | 0, _ => exact le_refl _
          | Nat.succ j1, hj => exact hall j1 (Nat.lt_of_succ_lt_succ hj)
        · intro j hj hj0; omega
      · right
        refine ⟨i + 1, Nat.succ_lt_succ hi, heq, hlt.trans hd, ?_, ?_⟩
        · intro j hj
          match j, hj with
          | 0, _ => exact hlt.le
          | Nat.succ j1, hj => exact hle j1 (Nat.lt_of_succ_lt_succ hj)
        · intro j hj hji
          match j, hj with
          | 0, _ => exact hlt
          | Nat.succ j1, hj =>
            exact hstrict j1 (Nat.lt_of_succ_lt_succ hj) (by omega)
    · rw [hstep, if_neg hd]
      have hmd : m ≤ g.dist p e.pos := not_lt.mp hd
      rcases ih t m with ⟨heq, hall⟩ | ⟨i, hi, heq, hlt, hle, hstrict⟩
      · left
        refine ⟨heq, ?_⟩
        intro j hj
        match j, hj with
        | 0, _ => exact hmd
        | Nat.succ j1, hj => exact hall j1 (Nat.lt_of_succ_lt_succ hj)
      · right
        refine ⟨i + 1, Nat.succ_lt_succ hi, heq, hlt, ?_, ?_⟩
        · intro j hj
          match j, hj with
          | 0, _ => exact (hlt.trans_le hmd).le
          | Nat.succ j1, hj => exact hle j1 (Nat.lt_of_succ_lt_succ hj)
        · intro j hj hji
          match j, hj with
          | 0, _ => exact hlt.trans_le hmd
          | Nat.succ j1, hj =>
            exact hstrict j1 (Nat.lt_of_succ_lt_succ hj) (by omega)

/-- The closest-enemy search succeeds on any non-empty list. -/
theorem findClosestEnemy_isSome (g : Geom) (p : Vec2) :
    ∀ (l : List Bot) (x : Bot × ℚ), ∃ y, findClosestLoop g p l (some x) = some y := by
  intro l
  induction l with
  | nil => intro x; exact ⟨x, rfl⟩
  | cons e rest ih =>
    intro x
    match x with
    | (t, m) =>
      by_cases hd : g.dist p e.pos < m
      · obtain ⟨y, hy⟩ := ih (e, g.dist p e.pos)
        exact ⟨y, by simpa [findClosestLoop, hd] using hy⟩
      · obtain ⟨y, hy⟩ := ih (t, m)
        exact ⟨y, by simpa [findClosestLoop, hd] using hy⟩

/-! Claim theorems. -/

/-- C6: for every hostile position, when the friendly list is non-empty
the closest-enemy search loop of planAiActions selects the friendly unit
at minimum distance (as measured by the library distance primitive, which
is Euclidean distance), and a tie keeps the earlier list element, because
the minimum search uses strict less-than. -/
theorem c6_targeting (g : Geom) (p : Vec2) (enemies : List Bot) (hne : enemies ≠ []) :
    ∃ i, ∃ hi : i < enemies.length,
      findClosestEnemy g p enemies =
        some (enemies.get ⟨i, hi⟩, g.dist p (enemies.get ⟨i, hi⟩).pos) ∧
      (∀ j, ∀ hj : j < enemies.length,
        g.dist p (enemies.get ⟨i, hi⟩).pos ≤ g.dist p (enemies.get ⟨j, hj⟩).pos) ∧
      (∀ j, ∀ hj : j < enemies.length, j < i →
        g.dist p (enemies.get ⟨i, hi⟩).pos < g.dist p (enemies.get ⟨j, hj⟩).pos) := by
  match enemies, hne with
  | e :: rest, _ =>
    have hstep : findClosestEnemy g p (e :: rest) =
        findClosestLoop g p rest (some (e, g.dist p e.pos)) := rfl
    rcases findClosestLoop_spec g p rest e (g.dist p e.pos) with
      ⟨heq, hall⟩ | ⟨i, hi, heq, hlt, hle, hstrict⟩
    · refine ⟨0, by simp, by rw [hstep]; exact heq, ?_, ?_⟩
      · intro j hj
        match j, hj with
        | 0, _ => exact le_refl _
        | Nat.succ j1, hj => exact hall j1 (Nat.lt_of_succ_lt_succ hj)
      · intro j hj hj0; omega
    · refine ⟨i + 1, Nat.succ_lt_succ hi, by rw [hstep]; exact heq, ?_, ?_⟩
      · intro j hj
        match j, hj with
        | 0, _ => exact hlt.le
        | Nat.succ j1, hj => exact hle j1 (Nat.lt_of_succ_lt_succ hj)
      · intro j hj hji
        match j, hj with
        | 0, _ => exact hlt
        | Nat.succ j1, hj => exact hstrict j1 (Nat.lt_of_succ_lt_succ hj) (by omega)

/-- Witness for C6 at the specification's own test: hostile at (0, 0),
friendlies at (10, 0) and (5, 0); the theorem applies, and evaluating the
search selects the (5, 0) unit at squared distance 25. -/
theorem c6_targeting_witness :
    (([friendlyA, friendlyB] : List Bot) ≠ []) ∧
    (∃ i, ∃ hi : i < ([friendlyA, friendlyB] : List Bot).length,
      findClosestEnemy geomId ⟨0, 0⟩ [friendlyA, friendlyB] =
        some (([friendlyA, friendlyB] : List Bot).get ⟨i, hi⟩,
          geomId.dist ⟨0, 0⟩ (([friendlyA, friendlyB] : List Bot).get ⟨i, hi⟩).pos) ∧
      (∀ j, ∀ hj : j < ([friendlyA, friendlyB] : List Bot).length,
        geomId.dist ⟨0, 0⟩ (([friendlyA, friendlyB] : List Bot).get ⟨i, hi⟩).pos ≤
          geomId.dist ⟨0, 0⟩ (([friendlyA, friendlyB] : List Bot).get ⟨j, hj⟩).pos) ∧
      (∀ j, ∀ hj : j < ([friendlyA, friendlyB] : List Bot).length, j < i →
        geomId.dist ⟨0, 0⟩ (([friendlyA, friendlyB] : List Bot).get ⟨i, hi⟩).pos <
          geomId.dist ⟨0, 0⟩ (([friendlyA, friendlyB] : List Bot).get ⟨j, hj⟩).pos)) ∧
    findClosestEnemy geomId ⟨0, 0⟩ [friendlyA, friendlyB] = some (friendlyB, 25) :=
  ⟨by simp, c6_targeting geomId ⟨0, 0⟩ [friendlyA, friendlyB] (by simp),
   by norm_num [findClosestEnemy, findClosestLoop, geomId, friendlyA, friendlyB, hostileW]⟩

/-- C8: calling the planner with an empty friendly list leaves every
hostile unit exactly as it was (the closest-enemy search yields null and
the loop body is skipped by continue), and nothing else changes. -/
theorem c8_empty_friendlies (g : Geom) (rand : ℕ → ℚ) (aiBots : List Bot)
    (barriers : List Barrier) (maxMoveDistance shootPreviewLength : ℚ) :
    planAiActions g rand [] aiBots barriers maxMoveDistance shootPreviewLength = aiBots := by
  have hgo : ∀ (l : List Bot) (k : ℕ),
      planAiActionsGo g rand [] barriers maxMoveDistance shootPreviewLength l k = (l, k) := by
    intro l
    induction l with
    | nil => intro k; rfl
    | cons b rest ih =>
      intro k
      have h1 : planOne g rand [] barriers maxMoveDistance shootPreviewLength b k = (b, k) := rfl
      simp [planAiActionsGo, h1, ih]
  simpa [planAiActions] using congrArg Prod.fst (hgo aiBots 0)

/-- planOne only rewrites the action field of the unit it plans. -/
theorem planOne_frame (g : Geom) (rand : ℕ → ℚ) (enemies : List Bot) (barriers : List Barrier)
    (maxMoveDistance shootPreviewLength : ℚ) (bot : Bot) (k : ℕ) :
    onlyActionChanged bot (planOne g rand enemies barriers maxMoveDistance shootPreviewLength bot k).1 := by
  unfold planOne onlyActionChanged
  rcases h : findClosestEnemy g bot.pos enemies with _ | ⟨t, m⟩
  · simp [h]
  · simp only [h]
    split_ifs <;> simp

/-- C10: the opposing-side planner writes only the action field of each
hostile unit; id, playerId, isAlive, selectedMode, plannedMove,
plannedShoot, position (and velocity, visibility, body state) are
untouched, and the friendly list is consumed read-only. -/
theorem c10_frame (g : Geom) (rand : ℕ → ℚ) (enemies aiBots : List Bot)
    (barriers : List Barrier) (maxMoveDistance shootPreviewLength : ℚ) :
    List.Forall₂ onlyActionChanged aiBots
      (planAiActions g rand enemies aiBots barriers maxMoveDistance shootPreviewLength) := by
  have hgo : ∀ (l : List Bot) (k : ℕ),
      List.Forall₂ onlyActionChanged l
        (planAiActionsGo g rand enemies barriers maxMoveDistance shootPreviewLength l k).1 := by
    intro l
    induction l with
    | nil => intro k; simp [planAiActionsGo]
    | cons b rest ih =>
      intro k
      exact List.Forall₂.cons
        (planOne_frame g rand enemies barriers maxMoveDistance shootPreviewLength b k)
        (ih _)
  exact hgo aiBots 0

/-- C2: for a hostile unit that reaches movement planning, the candidate
distance is drawn from [60, maxMoveDistance]; the candidate headings are
the to-target direction rotated by the 0, 15, ..., 345 degree sweep, and
the first heading in scan order whose segment to the candidate-distance
point clears every obstacle rectangle is committed at the originally
drawn distance; if no heading clears, the committed direction is a random
0-359 degree heading with the distance redrawn from [20, 40]; in every
case the result is a Move intent, never None. -/
theorem c2_movement_planning (g : Geom) (rand : ℕ → ℚ) (pos dir : Vec2)
    (barriers : List Barrier) (maxMoveDistance : ℚ) (k : ℕ) (z : ℤ)
    (hrand : ∀ n, 0 ≤ rand n ∧ rand n < 1)
    (hz : maxMoveDistance = (z : ℚ)) (hz60 : (60 : ℤ) ≤ z) :
    ((movePlan g rand pos dir barriers maxMoveDistance k).1.type = ActionType.move) ∧
    ((60 : ℚ) ≤ ((mathBetween 60 maxMoveDistance (rand k) : ℤ) : ℚ) ∧
      ((mathBetween 60 maxMoveDistance (rand k) : ℤ) : ℚ) ≤ maxMoveDistance) ∧
    ((∃ i, ∃ hi : i < angleList.length,
        sweepClear g pos dir barriers (mathBetween 60 maxMoveDistance (rand k))
          (angleList.get ⟨i, hi⟩) = true ∧
        (∀ j, ∀ hj : j < angleList.length, j < i →
          sweepClear g pos dir barriers (mathBetween 60 maxMoveDistance (rand k))
            (angleList.get ⟨j, hj⟩) = false) ∧
        (movePlan g rand pos dir barriers maxMoveDistance k).1.direction =
          g.rotateDeg (angleList.get ⟨i, hi⟩) dir ∧
        (movePlan g rand pos dir barriers maxMoveDistance k).1.distance =
          ((mathBetween 60 maxMoveDistance (rand k) : ℤ) : ℚ))
      ∨ ((∀ a ∈ angleList,
            sweepClear g pos dir barriers (mathBetween 60 maxMoveDistance (rand k)) a = false) ∧
          (movePlan g rand pos dir barriers maxMoveDistance k).1.direction =
            g.rotateDeg ((mathBetween 0 359 (rand (k + 1)) : ℤ) : ℚ) ⟨1, 0⟩ ∧
          ((0 : ℤ) ≤ mathBetween 0 359 (rand (k + 1)) ∧
            mathBetween 0 359 (rand (k + 1)) ≤ 359) ∧
          (movePlan g rand pos dir barriers maxMoveDistance k).1.distance =
            ((mathBetween 20 40 (rand (k + 2)) : ℤ) : ℚ) ∧
          ((20 : ℤ) ≤ mathBetween 20 40 (rand (k + 2)) ∧
            mathBetween 20 40 (rand (k + 2)) ≤ 40))) := by
  subst hz
  have hu := hrand k
  have hb := mathBetween_bounds 60 z (rand k) hu.1 hu.2 hz60
  have h60 : ((60 : ℤ) : ℚ) = (60 : ℚ) := by norm_num
  rw [h60] at hb
  refine ⟨?_, ⟨by exact_mod_cast hb.1, by exact_mod_cast hb.2⟩, ?_⟩
  · rcases hfind : angleList.find?
        (sweepClear g pos dir barriers (mathBetween 60 ((z : ℤ) : ℚ) (rand k))) with _ | a <;>
      simp [movePlan, hfind]
  · rcases hfind : angleList.find?
        (sweepClear g pos dir barriers (mathBetween 60 ((z : ℤ) : ℚ) (rand k))) with _ | a
    · right
      have hu1 := hrand (k + 1)
      have hb1 := mathBetween_bounds 0 359 (rand (k + 1)) hu1.1 hu1.2 (by norm_num)
      have hu2 := hrand (k + 2)
      have hb2 := mathBetween_bounds 20 40 (rand (k + 2)) hu2.1 hu2.2 (by norm_num)
      norm_num at hb1 hb2
      refine ⟨?_, ?_, ⟨hb1.1, hb1.2⟩, ?_, ⟨hb2.1, hb2.2⟩⟩
      · intro a ha
        have := List.find?_eq_none.mp hfind a ha
        simpa using this
      · simp [movePlan, hfind]
      · simp [movePlan, hfind]
    · left
      obtain ⟨i, hi, hget, hp, hfirst⟩ := findFirstIndex _ angleList a hfind
      refine ⟨i, hi, ?_, ?_, ?_, ?_⟩
      · rw [hget]; exact hp
      · intro j hj hji; exact hfirst j hj hji
      · rw [hget]; simp [movePlan, hfind]
      · simp [movePlan, hfind]

/-- Witness for C2 with the tuning constants of main.ts
(maxMoveDistance = 180), the all-zero entropy stream and an obstacle-free
arena: the hypotheses hold, the theorem applies, and the plan evaluates to
a Move intent at distance 60 in the unrotated direction. -/
theorem c2_movement_planning_witness :
    (∀ n, 0 ≤ rand0 n ∧ rand0 n < 1) ∧
    ((180 : ℚ) = ((180 : ℤ) : ℚ)) ∧ ((60 : ℤ) ≤ 180) ∧
    (((movePlan geomId rand0 ⟨0, 0⟩ ⟨1, 0⟩ [] 180 0).1.type = ActionType.move) ∧
      ((60 : ℚ) ≤ ((mathBetween 60 180 (rand0 0) : ℤ) : ℚ) ∧
        ((mathBetween 60 180 (rand0 0) : ℤ) : ℚ) ≤ 180) ∧
      ((∃ i, ∃ hi : i < angleList.length,
          sweepClear geomId ⟨0, 0⟩ ⟨1, 0⟩ [] (mathBetween 60 180 (rand0 0))
            (angleList.get ⟨i, hi⟩) = true ∧
          (∀ j, ∀ hj : j < angleList.length, j < i →
            sweepClear geomId ⟨0, 0⟩ ⟨1, 0⟩ [] (mathBetween 60 180 (rand0 0))
              (angleList.get ⟨j, hj⟩) = false) ∧
          (movePlan geomId rand0 ⟨0, 0⟩ ⟨1, 0⟩ [] 180 0).1.direction =
            geomId.rotateDeg (angleList.get ⟨i, hi⟩) ⟨1, 0⟩ ∧
          (movePlan geomId rand0 ⟨0, 0⟩ ⟨1, 0⟩ [] 180 0).1.distance =
            ((mathBetween 60 180 (rand0 0) : ℤ) : ℚ))
        ∨ ((∀ a ∈ angleList,
              sweepClear geomId ⟨0, 0⟩ ⟨1, 0⟩ [] (mathBetween 60 180 (rand0 0)) a = false) ∧
            (movePlan geomId rand0 ⟨0, 0⟩ ⟨1, 0⟩ [] 180 0).1.direction =
              geomId.rotateDeg ((mathBetween 0 359 (rand0 1) : ℤ) : ℚ) ⟨1, 0⟩ ∧
            ((0 : ℤ) ≤ mathBetween 0 359 (rand0 1) ∧
              mathBetween 0 359 (rand0 1) ≤ 359) ∧
            (movePlan geomId rand0 ⟨0, 0⟩ ⟨1, 0⟩ [] 180 0).1.distance =
              ((mathBetween 20 40 (rand0 2) : ℤ) : ℚ) ∧
            ((20 : ℤ) ≤ mathBetween 20 40 (rand0 2) ∧
              mathBetween 20 40 (rand0 2) ≤ 40)))) ∧
    movePlan geomId rand0 ⟨0, 0⟩ ⟨1, 0⟩ [] 180 0 =
      ({ type := ActionType.move, direction := ⟨1, 0⟩, distance := 60,
         target := Option.none }, 1) :=
  ⟨fun n => by norm_num [rand0], by norm_num, by norm_num,
   c2_movement_planning geomId rand0 ⟨0, 0⟩ ⟨1, 0⟩ [] 180 0 180
     (fun n => by norm_num [rand0]) (by norm_num) (by norm_num),
   by norm_num [movePlan, angleList, sweepClear, pathClear, mathBetween, geomId, rand0]⟩

/-- The win check never touches the rosters. -/
theorem checkWinCondition_rosters (s : GameState) :
    (checkWinCondition s).bots = s.bots ∧ (checkWinCondition s).playerBots = s.playerBots ∧
    (checkWinCondition s).aiBots = s.aiBots := by
  unfold checkWinCondition showWinMessage
  split_ifs <;> simp

/-- The message produced by the win check, with the hostile-roster-empty
case evaluated before the player-roster-empty case. -/
theorem checkWinCondition_winText (s : GameState) :
    (checkWinCondition s).winText =
      (if s.aiBots.length = 0 then some "You win!"
       else if s.playerBots.length = 0 then some "You lose!"
       else s.winText) := by
  unfold checkWinCondition showWinMessage
  split_ifs <;> rfl

/-- C1: a projectile-vs-unit overlap on an already-dead unit, from an
ownerless projectile, or from the unit's own projectile changes nothing
(same state, same bot, same particle, no win check effect); a qualifying
hit (live target, owned projectile, owner a different unit, delivered for
a still-active projectile) kills the unit, hides it and disables its
body, destroys the projectile clearing its owner, removes the unit from
the all-units roster and from its side's roster, and then the win check
runs on the reduced rosters with the hostile-roster-empty case ("You
win!") evaluated before the player-roster-empty case ("You lose!"). -/
theorem c1_hit_resolution (s : GameState) (bot : Bot) (particle : Particle) :
    ((bot.isAlive = false ∨ particle.ownerBot = Option.none ∨
        particle.ownerBot = some bot.id) →
      handleBotHit s bot particle = (s, bot, particle)) ∧
    (∀ oid, bot.isAlive = true → particle.ownerBot = some oid → oid ≠ bot.id →
      particle.active = true →
      ((handleBotHit s bot particle).2.1.isAlive = false ∧
       (handleBotHit s bot particle).2.1.visible = false ∧
       (handleBotHit s bot particle).2.1.bodyEnabled = false ∧
       (handleBotHit s bot particle).2.2.active = false ∧
       (handleBotHit s bot particle).2.2.ownerBot = Option.none ∧
       (handleBotHit s bot particle).1.bots = s.bots.filter (fun b => b.id != bot.id) ∧
       (bot.playerId = 1 →
         (handleBotHit s bot particle).1.playerBots =
           s.playerBots.filter (fun b => b.id != bot.id) ∧
         (handleBotHit s bot particle).1.aiBots = s.aiBots) ∧
       (bot.playerId ≠ 1 →
         (handleBotHit s bot particle).1.aiBots =
           s.aiBots.filter (fun b => b.id != bot.id) ∧
         (handleBotHit s bot particle).1.playerBots = s.playerBots) ∧
       (handleBotHit s bot particle).1.winText =
         (if (if bot.playerId = 1 then s.aiBots
              else s.aiBots.filter fun b => b.id != bot.id).length = 0 then some "You win!"
          else if (if bot.playerId = 1 then s.playerBots.filter (fun b => b.id != bot.id)
                   else s.playerBots).length = 0 then some "You lose!"
          else s.winText))) := by
  constructor
  · intro h
    unfold handleBotHit
    by_cases h1 : bot.isAlive = false
    · rw [if_pos h1]
    · rw [if_neg h1]
      by_cases h2 : particle.ownerBot = Option.none
      · rw [if_pos h2]
      · rw [if_neg h2]
        by_cases h3 : particle.ownerBot = some bot.id
        · rw [if_pos h3]
        · exfalso
          rcases h with hh | hh | hh
          · exact h1 hh
          · exact h2 hh
          · exact h3 hh
  · intro oid ha ho hne hact
    have h1 : ¬ bot.isAlive = false := by simp [ha]
    have h2 : ¬ particle.ownerBot = Option.none := by simp [ho]
    have h3 : ¬ particle.ownerBot = some bot.id := by simp [ho, hne]
    unfold handleBotHit
    rw [if_neg h1, if_neg h2, if_neg h3]
    have hr := checkWinCondition_rosters
      { s with
        bots := s.bots.filter fun b => b.id != bot.id,
        playerBots :=
          if bot.playerId = 1 then s.playerBots.filter (fun b => b.id != bot.id)
          else s.playerBots,
        aiBots :=
          if bot.playerId = 1 then s.aiBots
          else s.aiBots.filter fun b => b.id != bot.id }
    have hw := checkWinCondition_winText
      { s with
        bots := s.bots.filter fun b => b.id != bot.id,
        playerBots :=
          if bot.playerId = 1 then s.playerBots.filter (fun b => b.id != bot.id)
          else s.playerBots,
        aiBots :=
          if bot.playerId = 1 then s.aiBots
          else s.aiBots.filter fun b => b.id != bot.id }
    refine ⟨rfl, rfl, rfl, by simp [hact, destroyBullet], by simp [hact, destroyBullet],
      hr.1, ?_, ?_, hw⟩
    · intro hp
      exact ⟨by rw [hr.2.1]; simp [hp], by rw [hr.2.2]; simp [hp]⟩
    · intro hp
      exact ⟨by rw [hr.2.2]; simp [hp], by rw [hr.2.1]; simp [hp]⟩

/-- Witness for C1: the bullet owned by the last friendly unit hits the
last hostile unit in stateW; the hit qualifies, the hostile dies and the
win check reports "You win!" (the hostile roster empties first). -/
theorem c1_hit_resolution_witness :
    (handleBotHit stateW hostileW bulletW).2.1.isAlive = false ∧
    (handleBotHit stateW hostileW bulletW).2.1.visible = false ∧
    (handleBotHit stateW hostileW bulletW).2.1.bodyEnabled = false ∧
    (handleBotHit stateW hostileW bulletW).2.2.active = false ∧
    (handleBotHit stateW hostileW bulletW).2.2.ownerBot = Option.none ∧
    (handleBotHit stateW hostileW bulletW).1.bots =
      stateW.bots.filter (fun b => b.id != hostileW.id) ∧
    (hostileW.playerId = 1 →
      (handleBotHit stateW hostileW bulletW).1.playerBots =
        stateW.playerBots.filter (fun b => b.id != hostileW.id) ∧
      (handleBotHit stateW hostileW bulletW).1.aiBots = stateW.aiBots) ∧
    (hostileW.playerId ≠ 1 →
      (handleBotHit stateW hostileW bulletW).1.aiBots =
        stateW.aiBots.filter (fun b => b.id != hostileW.id) ∧
      (handleBotHit stateW hostileW bulletW).1.playerBots = stateW.playerBots) ∧
    (handleBotHit stateW hostileW bulletW).1.winText =
      (if (if hostileW.playerId = 1 then stateW.aiBots
           else stateW.aiBots.filter fun b => b.id != hostileW.id).length = 0
       then some "You win!"
       else if (if hostileW.playerId = 1
                then stateW.playerBots.filter (fun b => b.id != hostileW.id)
                else stateW.playerBots).length = 0 then some "You lose!"
       else stateW.winText) :=
  (c1_hit_resolution stateW hostileW bulletW).2 11 rfl rfl
    (by norm_num [hostileW]) rfl

/-- Counterexample to C3 as stated: in stateW (execution phase, round
timer pending) the final kill is processed, "You win!" is shown and the
planning flag cleared; yet when the still-pending round timer fires,
endRound unconditionally re-enters the planning phase and re-enables the
start control — the round timer's effect after the win is not a no-op
and the machine does return to planning. -/
theorem c3_counterexample :
    (handleBotHit stateW hostileW bulletW).1.winText = some "You win!" ∧
    (handleBotHit stateW hostileW bulletW).1.isPlanning = false ∧
    (handleBotHit stateW hostileW bulletW).1.startDisabled = true ∧
    (endRound (handleBotHit stateW hostileW bulletW).1).isPlanning = true ∧
    (endRound (handleBotHit stateW hostileW bulletW).1).startDisabled = false := by
  decide

/-- C3 amended: win detection immediately leaves the planning phase,
disables the start control and records the message, but there is no
terminal GameOver state: a still-pending round timer runs endRound, which
unconditionally re-enters planning and re-enables the start control from
any state whatsoever, including one showing a win message. -/
theorem c3_game_over_amended (msg : String) (s s2 : GameState) :
    ((showWinMessage msg s).isPlanning = false ∧
      (showWinMessage msg s).startDisabled = true ∧
      (showWinMessage msg s).winText = some msg) ∧
    ((endRound s2).isPlanning = true ∧ (endRound s2).startDisabled = false) := by
  simp [showWinMessage, endRound]

/-- C4: when the round timer fires, endRound re-enters planning, zeroes
every surviving unit's velocity, resets its intent to the exact None
default and clears both remembered-intent slots, and destroys all
remaining projectiles (each destroyed bullet's owner reference is cleared
before the group is emptied). -/
theorem c4_round_end (s : GameState) :
    (endRound s).isPlanning = true ∧
    (endRound s).particles = [] ∧
    List.Forall₂
      (fun b b1 =>
        (b.isAlive = true → b1 = resetSurvivor b) ∧
        (b.isAlive = false → b1 = b))
      s.bots (endRound s).bots := by
  refine ⟨rfl, rfl, ?_⟩
  have hmap : (endRound s).bots =
      s.bots.map (fun b => if b.isAlive then resetSurvivor b else b) := rfl
  rw [hmap, List.forall₂_map_right_iff]
  rw [List.forall₂_same]
  intro b _
  constructor
  · intro ha
    simp [ha]
  · intro hd
    simp [hd]

/-- C5: per-unit round execution. A Move intent assigns velocity =
direction * (distance / (roundDurationMs / 1000)) and spawns nothing; a
Shoot intent spawns exactly 3 projectiles (the pooled group, capacity
200, has room — hypothesis hcap, which always holds in reachable states
with at most 10 units), the i-th with heading equal to the intent
direction rotated by the independent draw FloatBetween(-8, 8) — an
offset within ±8 degrees — spawned 18 units ahead of the unit along its
own heading, moving at speed 420 along it, and force-expired after
maxBulletDistance / 420 seconds (lifetime maxBulletDistance / 420 * 1000
milliseconds) where maxBulletDistance = min(fieldWidth, fieldHeight) / 2;
a None intent changes neither velocity nor the particle group. -/
theorem c5_round_executor (g : Geom) (rand : ℕ → ℚ)
    (fieldWidth fieldHeight roundDurationMs : ℚ)
    (bot : Bot) (particles : List Particle) (k : ℕ)
    (hrand : ∀ n, 0 ≤ rand n ∧ rand n < 1)
    (hcap : particles.length + 3 ≤ 200)
    (hdir : g.normalize bot.action.direction = bot.action.direction) :
    (bot.action.type = ActionType.move →
      execOne g rand fieldWidth fieldHeight roundDurationMs bot particles k =
        ({ bot with velocity :=
            ⟨bot.action.direction.x * (bot.action.distance / (roundDurationMs / 1000)),
             bot.action.direction.y * (bot.action.distance / (roundDurationMs / 1000))⟩ },
         particles, k)) ∧
    (bot.action.type = ActionType.shoot →
      (execOne g rand fieldWidth fieldHeight roundDurationMs bot particles k =
        (bot, particles ++ [bulletAt g rand fieldWidth fieldHeight bot k 0,
                            bulletAt g rand fieldWidth fieldHeight bot k 1,
                            bulletAt g rand fieldWidth fieldHeight bot k 2], k + 3)) ∧
      (∀ i, -8 ≤ floatBetween (-8) 8 (rand (k + i)) ∧
        floatBetween (-8) 8 (rand (k + i)) ≤ 8)) ∧
    (bot.action.type = ActionType.none →
      execOne g rand fieldWidth fieldHeight roundDurationMs bot particles k =
        (bot, particles, k)) := by
  refine ⟨?_, ?_, ?_⟩
  · intro h
    simp [execOne, h]
  · intro h
    constructor
    · have hc0 : particles.length < 200 := by omega
      have hc1 : particles.length + 1 < 200 := by omega
      have hc2 : particles.length + 1 + 1 < 200 := by omega
      simp [execOne, h, spawnShot, hdir, spawnShotLoop, bulletAt,
        List.length_append, hc0, hc1, hc2, List.append_assoc, Nat.add_assoc]
    · intro i
      exact floatBetween_bounds (-8) 8 (rand (k + i)) (hrand _).1 (hrand _).2 (by norm_num)
  · intro h
    simp [execOne, h]

/-- Witness for C5 at the main.ts constants (arena 1280 x 720, round
duration 2000 ms): the hypotheses hold, the theorem applies to a shoot
intent, and the first spawned bullet evaluates to the concrete particle
18 units ahead at heading (1, 0), speed 420, lifetime 6000/7 ms
(= (720 / 2) / 420 * 1000). -/
theorem c5_round_executor_witness :
    (∀ n, 0 ≤ rand0 n ∧ rand0 n < 1) ∧
    (([] : List Particle).length + 3 ≤ 200) ∧
    (geomId.normalize shooterW.action.direction = shooterW.action.direction) ∧
    (execOne geomId rand0 1280 720 2000 shooterW [] 0 =
      (shooterW, [bulletAt geomId rand0 1280 720 shooterW 0 0,
                  bulletAt geomId rand0 1280 720 shooterW 0 1,
                  bulletAt geomId rand0 1280 720 shooterW 0 2], 3)) ∧
    bulletAt geomId rand0 1280 720 shooterW 0 0 =
      { pos := ⟨18, 0⟩, vel := ⟨420, 0⟩, ownerBot := some 21, active := true,
        lifetimeMs := 6000 / 7 } :=
  ⟨fun n => by norm_num [rand0], by norm_num, rfl,
   ((c5_round_executor geomId rand0 1280 720 2000 shooterW [] 0
      (fun n => by norm_num [rand0]) (by norm_num) rfl).2.1
      (by simp [shooterW, shootActionW])).1,
   by norm_num [bulletAt, geomId, rand0, shooterW, shootActionW, hostileW, floatBetween,
     noneAction]⟩

/-- The movement planner never stores a target field in the intent it
commits (planAIActions.ts line 68 builds the action without one). -/
theorem movePlan_no_target (g : Geom) (rand : ℕ → ℚ) (pos dir : Vec2)
    (barriers : List Barrier) (maxMoveDistance : ℚ) (k : ℕ) :
    (movePlan g rand pos dir barriers maxMoveDistance k).1.target = Option.none := by
  unfold movePlan
  rcases hfind : angleList.find?
      (sweepClear g pos dir barriers (mathBetween 60 maxMoveDistance (rand k))) with _ | a <;>
    simp [hfind]

/-- Counterexample to C7 as stated: with one friendly at (10, 0), one
hostile at the origin, no obstacles and the all-zero entropy stream, the
opposing-side planner commits a Move intent whose target field is absent
(Option.none), so not every committed Move intent carries a target point. -/
theorem c7_counterexample :
    (planAiActions geomId rand0 [friendlyA] [hostileW] [] 180 0).map
        (fun b => (b.action.type, b.action.target)) =
      [(ActionType.move, (Option.none : Option Vec2))] := by
  norm_num [planAiActions, planAiActionsGo, planOne, findClosestEnemy, findClosestLoop,
    movePlan, angleList, sweepClear, pathClear, mathBetween, toTargetDir, geomId, rand0,
    friendlyA, hostileW, noneAction, List.find?]

/-- C7 amended: a Move intent committed by player drag input does carry
target = origin + direction * distance at the moment of commitment (in
either drag path and for the shoot preview analogously), but an intent
committed by the opposing-side planner — Move or Shoot — carries no
target field at all. -/
theorem c7_target_amended (g : Geom) (maxMoveDistance shootPreviewLength : ℚ)
    (bot : Bot) (pointer : Vec2) (draggingIndicator : Bool)
    (rand : ℕ → ℚ) (enemies : List Bot) (barriers : List Barrier) (bot2 : Bot) (k : ℕ) :
    (bot.selectedMode = Mode.move →
      ((applyDragAction g maxMoveDistance shootPreviewLength bot pointer
          draggingIndicator).action.type = ActionType.move ∧
       (applyDragAction g maxMoveDistance shootPreviewLength bot pointer
          draggingIndicator).action.target =
         some (((applyDragAction g maxMoveDistance shootPreviewLength bot pointer
             draggingIndicator).action.direction.scale
           (applyDragAction g maxMoveDistance shootPreviewLength bot pointer
             draggingIndicator).action.distance).add bot.pos))) ∧
    (enemies ≠ [] →
      (planOne g rand enemies barriers maxMoveDistance shootPreviewLength bot2 k).1.action.target =
        Option.none) := by
  constructor
  · intro hm
    cases draggingIndicator <;> simp [applyDragAction, hm]
  · intro hne
    match enemies, hne with
    | e :: rest, _ =>
      obtain ⟨⟨t, m⟩, hy⟩ :=
        findClosestEnemy_isSome g bot2.pos rest (e, g.dist bot2.pos e.pos)
      have hsome : findClosestEnemy g bot2.pos (e :: rest) = some (t, m) := hy
      simp only [planOne, hsome]
      split_ifs with h1 h2
      · rfl
      · exact movePlan_no_target g rand bot2.pos
          (g.normalize (toTargetDir bot2.pos t.pos)) barriers maxMoveDistance (k + 1)
      · exact movePlan_no_target g rand bot2.pos
          (g.normalize (toTargetDir bot2.pos t.pos)) barriers maxMoveDistance k

/-- Witness for C7 amended: a drag of the hostile-free player unit at the
origin to pointer (10, 0) commits a Move whose target is present and
equal to origin + direction * distance (evaluating to (1000, 0) under the
squared-distance geometry), while the planner at the same inputs commits
an intent with no target. -/
theorem c7_target_amended_witness :
    (hostileW.selectedMode = Mode.move) ∧
    (([friendlyA] : List Bot) ≠ []) ∧
    ((hostileW.selectedMode = Mode.move →
      ((applyDragAction geomId 180 180 hostileW ⟨10, 0⟩ false).action.type =
          ActionType.move ∧
       (applyDragAction geomId 180 180 hostileW ⟨10, 0⟩ false).action.target =
         some (((applyDragAction geomId 180 180 hostileW ⟨10, 0⟩ false).action.direction.scale
           (applyDragAction geomId 180 180 hostileW ⟨10, 0⟩ false).action.distance).add
             hostileW.pos))) ∧
     (([friendlyA] : List Bot) ≠ [] →
       (planOne geomId rand0 [friendlyA] [] 180 180 hostileW 0).1.action.target =
         Option.none)) ∧
    (applyDragAction geomId 180 180 hostileW ⟨10, 0⟩ false).action.target =
      some ⟨1000, 0⟩ :=
  ⟨rfl, by simp,
   c7_target_amended geomId 180 180 hostileW ⟨10, 0⟩ false rand0 [friendlyA] [] hostileW 0,
   by norm_num [applyDragAction, geomId, toTargetDir, hostileW, noneAction, Vec2.scale,
     Vec2.add]⟩

/-- With no obstacles, movement planning commits the zero-offset heading
at the drawn distance (the first sweep angle clears trivially). -/
theorem movePlan_nil (g : Geom) (rand : ℕ → ℚ) (pos dir : Vec2)
    (maxMoveDistance : ℚ) (k : ℕ) :
    movePlan g rand pos dir [] maxMoveDistance k =
      ({ type := ActionType.move, direction := g.rotateDeg 0 dir,
         distance := ((mathBetween 60 maxMoveDistance (rand k) : ℤ) : ℚ),
         target := Option.none }, k + 1) := by
  unfold movePlan
  have hfind : angleList.find?
      (sweepClear g pos dir [] (mathBetween 60 maxMoveDistance (rand k))) = some 0 := by
    simp [angleList, List.find?, sweepClear, pathClear]
  rw [hfind]

/-- Counterexample to C9 as stated: same unit positions, same obstacle
set, same tuning constants, same entropy stream; the src/src planner
sweeps around the obstacle blocking the direct path and commits heading
(0, 10), while the part_000 planner (which performs no sweep) commits the
direct heading (10, 0) — the two variants do not commit identical
intents. -/
theorem c9_counterexample :
    (planAiActions geomBlock rand0 [friendlyA] [hostileW] [barrierW] 180 0).map
        (fun b => b.action.direction) = [(⟨0, 10⟩ : Vec2)] ∧
    (planAiActionsEmbedded geomBlock rand0 [friendlyA] [hostileW] 180 0).map
        (fun b => b.action.direction) = [(⟨10, 0⟩ : Vec2)] ∧
    ¬ (planAiActions geomBlock rand0 [friendlyA] [hostileW] [barrierW] 180 0 =
        planAiActionsEmbedded geomBlock rand0 [friendlyA] [hostileW] 180 0) := by
  norm_num [planAiActions, planAiActionsGo, planOne, planAiActionsEmbedded,
    planAiActionsEmbeddedGo, planOneEmbedded, findClosestEnemy, findClosestLoop,
    movePlan, angleList, sweepClear, pathClear, mathBetween, toTargetDir,
    geomBlock, rand0, friendlyA, hostileW, barrierW, Barrier.rect, noneAction,
    List.find?, Vec2.scale, Vec2.add]

/-- C9 amended: the two planners share targeting, direction derivation,
shoot decision and move-distance draw, and commit identical intents on
identical inputs and identical random draws whenever the obstacle set is
empty (taking the library's zero-degree rotation as the identity it is);
but only the src/src variant performs the obstacle-avoiding angular sweep
and the wiggle fallback — the part_000 variant ignores obstacles
entirely, so the two diverge as soon as an obstacle blocks the direct
segment. -/
theorem c9_variants_amended (g : Geom) (rand : ℕ → ℚ) (enemies aiBots : List Bot)
    (maxMoveDistance shootPreviewLength : ℚ)
    (h0 : ∀ v, g.rotateDeg 0 v = v) :
    planAiActions g rand enemies aiBots [] maxMoveDistance shootPreviewLength =
      planAiActionsEmbedded g rand enemies aiBots maxMoveDistance shootPreviewLength := by
  have hone : ∀ (bot : Bot) (k : ℕ),
      planOne g rand enemies [] maxMoveDistance shootPreviewLength bot k =
        planOneEmbedded g rand enemies maxMoveDistance shootPreviewLength bot k := by
    intro bot k
    unfold planOne planOneEmbedded
    rcases hfc : findClosestEnemy g bot.pos enemies with _ | ⟨t, m⟩
    · rfl
    · simp only [hfc]
      split_ifs with h1 h2
      · rfl
      · rw [movePlan_nil]
        simp [h0]
      · rw [movePlan_nil]
        simp [h0]
  have hgo : ∀ (l : List Bot) (k : ℕ),
      planAiActionsGo g rand enemies [] maxMoveDistance shootPreviewLength l k =
        planAiActionsEmbeddedGo g rand enemies maxMoveDistance shootPreviewLength l k := by
    intro l
    induction l with
    | nil => intro k; rfl
    | cons b rest ih =>
      intro k
      simp [planAiActionsGo, planAiActionsEmbeddedGo, hone, ih]
  unfold planAiActions planAiActionsEmbedded
  rw [hgo]

/-- Witness for C9 amended: under the identity-rotation geometry with no
obstacles, the hypothesis holds, the two planners agree, and (with the
all-zero entropy stream putting the hostile within shooting range and the
coin on shoot) both evaluate to the same committed Shoot intent. -/
theorem c9_variants_amended_witness :
    (∀ v, geomId.rotateDeg 0 v = v) ∧
    (planAiActions geomId rand0 [friendlyA] [hostileW] [] 180 180 =
      planAiActionsEmbedded geomId rand0 [friendlyA] [hostileW] 180 180) ∧
    (planAiActionsEmbedded geomId rand0 [friendlyA] [hostileW] 180 180).map
        (fun b => b.action) =
      [{ type := ActionType.shoot, direction := ⟨10, 0⟩, distance := 0,
         target := Option.none }] :=
  ⟨fun v => rfl,
   c9_variants_amended geomId rand0 [friendlyA] [hostileW] 180 180 (fun v => rfl),
   by norm_num [planAiActionsEmbedded, planAiActionsEmbeddedGo, planOneEmbedded,
     findClosestEnemy, findClosestLoop, mathBetween, toTargetDir, geomId, rand0,
     friendlyA, hostileW, noneAction]⟩

end BotBrawl
